import Mathlib

/-!
Verification of the session-management core of `lwlwilliam/session`
(`session.go`), shallowly embedded in Lean 4.

The embedding follows the Go source line by line:

* `base64URLEncode` models `base64.URLEncoding.EncodeToString` (the URL-safe
  base64 alphabet `A-Z a-z 0-9 - _` with `=` padding).
* `queryEscape` / `queryUnescape` model `url.QueryEscape` / `url.QueryUnescape`
  from `net/url` on single-byte (ASCII) strings, which is all the Manager ever
  escapes or unescapes: alphanumerics and `- _ . ~` pass through, space maps
  to `+`, every other byte becomes `%XX` with upper-case hex; unescaping
  rejects a `%` that is not followed by two hex digits.
* The `Provider` interface of session.go becomes a structure of transition
  functions over an abstract backend state `σ`, returning Go's nil-able
  `(Session, error)` pairs as `Option ς × Option String`.
* `Manager.SessionStart`, `Manager.SessionDestroy` and `Manager.GC` are
  embedded as pure state-passing functions that additionally record the
  trace of Provider calls made and the cookies written to the response, so
  the theorems can speak about which backend operations a request triggers.
* Randomness is passed in explicitly: `sessionID rand` receives the outcome
  of `rand.Read` on the 32-byte buffer (`none` models a failing read, in
  which case session.go returns the empty string).
-/

namespace SessionGo

/-- The URL-safe base64 alphabet used by Go's `base64.URLEncoding`. -/
def b64urlAlphabet : List Char :=
  "ABCDEFGHIJKLMNOPQRSTUVWXYZabcdefghijklmnopqrstuvwxyz0123456789-_".toList

/-- The base64 digit for a 6-bit value. -/
def b64Char (n : Nat) : Char := b64urlAlphabet.getD n 'A'

/-- `base64.URLEncoding.EncodeToString` on a byte list: groups of three bytes
become four base64 digits; a final group of one or two bytes is padded with
`=`. -/
def base64URLEncode : List Nat → List Char
  | [] => []
  | [a] => [b64Char (a / 4), b64Char (a % 4 * 16), '=', '=']
  | [a, b] => [b64Char (a / 4), b64Char (a % 4 * 16 + b / 16), b64Char (b % 16 * 4), '=']
  | a :: b :: c :: rest =>
    b64Char (a / 4) :: b64Char (a % 4 * 16 + b / 16) ::
      b64Char (b % 16 * 4 + c / 64) :: b64Char (c % 64) :: base64URLEncode rest

/-- String form of `base64.URLEncoding.EncodeToString`. -/
def encodeToString (b : List Nat) : String := ⟨base64URLEncode b⟩

/-- Go's `upperhex` digit table from `net/url`. -/
def upperhexDigit (n : Nat) : Char := "0123456789ABCDEF".toList.getD n '0'

/-- The bytes `net/url.shouldEscape` leaves untouched in a query component:
alphanumerics and `- _ . ~`. -/
def isQueryUnreserved (c : Char) : Bool :=
  ('A' ≤ c && c ≤ 'Z') || ('a' ≤ c && c ≤ 'z') || ('0' ≤ c && c ≤ '9') ||
    (c == '-' || c == '_' || c == '.' || c == '~')

/-- One character of `url.QueryEscape`: unreserved bytes pass through, space
becomes `+`, anything else becomes `%XX` in upper-case hex. -/
def queryEscapeChar (c : Char) : List Char :=
  if isQueryUnreserved c then [c]
  else if c == ' ' then ['+']
  else ['%', upperhexDigit (c.toNat / 16), upperhexDigit (c.toNat % 16)]

/-- `url.QueryEscape` on an ASCII string. -/
def queryEscape (s : String) : String := ⟨s.toList.flatMap queryEscapeChar⟩

/-- The numeric value of a hex digit, either case, as `net/url.unhex`
(byte ranges written out: `0`–`9` is 48–57, `a`–`f` is 97–102, `A`–`F` is
65–70). -/
def hexVal (c : Char) : Option Nat :=
  let n := c.toNat
  if 48 ≤ n ∧ n ≤ 57 then some (n - 48)
  else if 97 ≤ n ∧ n ≤ 102 then some (n - 87)
  else if 65 ≤ n ∧ n ≤ 70 then some (n - 55)
  else none

/-- `url.QueryUnescape` on the character list: `%XX` decodes to the byte `XX`
(an invalid or truncated escape is an error, `none`), `+` decodes to space,
every other character passes through. -/
def queryUnescapeList : List Char → Option (List Char)
  | [] => some []
  | '%' :: a :: b :: rest => do
    let x ← hexVal a
    let y ← hexVal b
    let r ← queryUnescapeList rest
    pure (Char.ofNat (x * 16 + y) :: r)
  | '%' :: _ => none
  | '+' :: rest => (queryUnescapeList rest).map (' ' :: ·)
  | c :: rest => (queryUnescapeList rest).map (c :: ·)

/-- `url.QueryUnescape`: `none` models Go's non-nil error return, in which
case the accompanying string result is empty. -/
def queryUnescape (s : String) : Option String :=
  (queryUnescapeList s.toList).map List.asString

/-- An HTTP cookie, restricted to the fields `session.go` sets.
`expiresSet` records whether the code filled the `Expires` field (with the
current time, as `Manager.SessionDestroy` does). -/
structure Cookie where
  name : String
  value : String
  path : String
  httpOnly : Bool
  maxAge : Int
  expiresSet : Bool
deriving DecidableEq, Repr

/-- One call made to the bound Provider, with the argument it was given. -/
inductive ProviderCall where
  | init (sid : String)
  | read (sid : String)
  | destroy (sid : String)
  | gc (maxLifeTime : Int)
deriving DecidableEq, Repr

/-- The `Provider` interface of session.go over a backend state `σ` whose
session handles have type `ς`.  Each operation returns the updated backend
state together with Go's nil-able results: `Option ς` is the possibly-nil
`Session` interface value and `Option String` the possibly-nil `error`. -/
structure Provider (σ ς : Type) where
  sessionInit : σ → String → σ × Option ς × Option String
  sessionRead : σ → String → σ × Option ς × Option String
  sessionDestroy : σ → String → σ × Option String
  sessionGC : σ → Int → σ

/-- The `Manager` struct: cookie name, bound provider and `maxLifeTime`
(the `sync.Mutex` serialises the operations and has no pure content). -/
structure Manager (σ ς : Type) where
  cookieName : String
  provider : Provider σ ς
  maxLifeTime : Int

/-- `Register`: inserts a provider under a name; `none` models the two
`panic` paths (nil provider, duplicate name). -/
def Register {σ ς : Type} (providers : List (String × Provider σ ς))
    (name : String) (provider : Option (Provider σ ς)) :
    Option (List (String × Provider σ ς)) :=
  match provider with
  | none => none
  | some p =>
    if (providers.lookup name).isSome then none
    else some ((name, p) :: providers)

/-- `NewManager(provideName, cookieName, maxLifeTime)`: looks the provider up
by name in the registry and either returns the error
`session: unknown provide %q (forgotten import?)` or a Manager bound to the
registered provider. -/
def NewManager {σ ς : Type} (providers : List (String × Provider σ ς))
    (provideName cookieName : String) (maxLifeTime : Int) :
    Except String (Manager σ ς) :=
  match providers.lookup provideName with
  | none =>
    .error ("session: unknown provide \"" ++ provideName ++ "\" (forgotten import?)")
  | some p =>
    .ok { cookieName := cookieName, provider := p, maxLifeTime := maxLifeTime }

/-- `Manager.sessionID`: reads 32 bytes from `crypto/rand` and base64-URL
encodes them; if `rand.Read` errors (`rand = none`) the function returns the
empty string. -/
def sessionID (rand : Option (List Nat)) : String :=
  match rand with
  | none => ""
  | some b => encodeToString b

/-- What `Manager.SessionStart` leaves behind: the backend state, the
returned (possibly nil) `Session`, the cookies appended to the response via
`http.SetCookie`, and the Provider calls made. -/
structure StartResult (σ ς : Type) where
  state : σ
  session : Option ς
  cookiesSet : List Cookie
  calls : List ProviderCall
deriving DecidableEq

/-- The new-session branch of `Manager.SessionStart`: generate an identifier,
`SessionInit` it (the returned error lands in the dead `err` variable), and
set a cookie with the URL-escaped identifier, path `/`, `HttpOnly`,
`MaxAge = int(maxLifeTime)`. -/
def Manager.sessionStartNew {σ ς : Type} (m : Manager σ ς) (st : σ)
    (rand : Option (List Nat)) : StartResult σ ς :=
  let sid := sessionID rand
  let r := m.provider.sessionInit st sid
  { state := r.1
    session := r.2.1
    cookiesSet := [{ name := m.cookieName, value := queryEscape sid, path := "/",
                     httpOnly := true, maxAge := m.maxLifeTime, expiresSet := false }]
    calls := [.init sid] }

/-- `Manager.SessionStart`: `reqCookie` is the value of the request cookie
named `cookieName` (`none` models `r.Cookie` returning `http.ErrNoCookie`).
If the cookie is absent or empty the new-session branch runs; otherwise the
value is URL-unescaped (the error discarded, so a failed unescape yields the
empty identifier, matching Go's `("", err)` return) and `SessionRead` is
asked for it, its error discarded as well. -/
def Manager.SessionStart {σ ς : Type} (m : Manager σ ς) (st : σ)
    (reqCookie : Option String) (rand : Option (List Nat)) : StartResult σ ς :=
  match reqCookie with
  | none => m.sessionStartNew st rand
  | some v =>
    if v = "" then m.sessionStartNew st rand
    else
      let sid := (queryUnescape v).getD ""
      let r := m.provider.sessionRead st sid
      { state := r.1, session := r.2.1, cookiesSet := [], calls := [.read sid] }

/-- What `Manager.SessionDestroy` leaves behind. -/
structure DestroyResult (σ : Type) where
  state : σ
  cookiesSet : List Cookie
  calls : List ProviderCall
deriving DecidableEq

/-- `Manager.SessionDestroy`: a no-op when the cookie is absent or empty;
otherwise calls `provider.SessionDestroy(cookie.Value)` — note: the raw
cookie value, not URL-unescaped — and sets an expired cookie
(`Expires = time.Now()`, `MaxAge = -1`). -/
def Manager.SessionDestroy {σ ς : Type} (m : Manager σ ς) (st : σ)
    (reqCookie : Option String) : DestroyResult σ :=
  match reqCookie with
  | none => { state := st, cookiesSet := [], calls := [] }
  | some v =>
    if v = "" then { state := st, cookiesSet := [], calls := [] }
    else
      let r := m.provider.sessionDestroy st v
      { state := r.1
        cookiesSet := [{ name := m.cookieName, value := "", path := "/",
                         httpOnly := true, maxAge := -1, expiresSet := true }]
        calls := [.destroy v] }

/-- Insert-or-replace on an association list, preserving insertion order:
an existing binding of the key is overwritten in place, a new key is
appended at the end. -/
def assocSet {K V : Type} [DecidableEq K] : List (K × V) → K → V → List (K × V)
  | [], k, v => [(k, v)]
  | (k', v') :: rest, k, v =>
    if k' = k then (k, v) :: rest else (k', v') :: assocSet rest k v

/-- Lookup on an association list. -/
def assocGet {K V : Type} [DecidableEq K] : List (K × V) → K → Option V
  | [], _ => none
  | (k', v') :: rest, k => if k' = k then some v' else assocGet rest k

/-- Remove every binding of a key from an association list. -/
def assocDel {K V : Type} [DecidableEq K] : List (K × V) → K → List (K × V)
  | [], _ => []
  | (k', v') :: rest, k =>
    if k' = k then assocDel rest k else (k', v') :: assocDel rest k

/-- Modelled from the spec: the `SessionStore` held per session by the
in-memory provider (package `providers/memory`, not part of the analysed
sources) — a unique identifier, a last-access timestamp, and an
insertion-ordered mapping of keys to values, both of unconstrained type. -/
structure SessionStore (K V : Type) where
  sid : String
  lastAccessed : Int
  values : List (K × V)
deriving DecidableEq

/-- Modelled from the spec: `set(key, value)` on a session handle stores the
value under the key in the session's value mapping (insertion order
preserved) and returns a nil error. -/
def SessionStore.Set {K V : Type} [DecidableEq K] (s : SessionStore K V)
    (k : K) (v : V) : SessionStore K V :=
  { s with values := assocSet s.values k v }

/-- Modelled from the spec: `get(key)` on a session handle returns the value
stored under the key, or absent (`none`). -/
def SessionStore.Get {K V : Type} [DecidableEq K] (s : SessionStore K V)
    (k : K) : Option V :=
  assocGet s.values k

/-- Modelled from the spec: `delete(key)` on a session handle removes the
key from the session's value mapping and returns a nil error. -/
def SessionStore.Delete {K V : Type} [DecidableEq K] (s : SessionStore K V)
    (k : K) : SessionStore K V :=
  { s with values := assocDel s.values k }

/-- Modelled from the spec: `SessionID()` on a session handle returns the
session's identifier. -/
def SessionStore.SessionID {K V : Type} (s : SessionStore K V) : String :=
  s.sid

/-- A session store with string keys and values, as the demo uses. -/
abbrev MemStore := SessionStore String String

/-- Modelled from the spec: the memory provider's registry, a mapping from
identifier to `SessionStore`. -/
abbrev MemSt := List (String × MemStore)

/-- Modelled from the spec: the memory provider's `init(id)` creates and
stores a new empty `SessionStore` under `id` (last accessed now). -/
def memSessionInit (now : Int) (st : MemSt) (sid : String) :
    MemSt × Option MemStore × Option String :=
  let store : MemStore := { sid := sid, lastAccessed := now, values := [] }
  (assocSet st sid store, some store, none)

/-- Modelled from the spec: the memory provider's `read(id)` returns the
existing store for `id`, refreshing `lastAccessed`, or signals NotFound. -/
def memSessionRead (now : Int) (st : MemSt) (sid : String) :
    MemSt × Option MemStore × Option String :=
  match assocGet st sid with
  | some store =>
    let store := { store with lastAccessed := now }
    (assocSet st sid store, some store, none)
  | none => (st, none, some "session: NotFound")

/-- Modelled from the spec: the memory provider's `destroy(id)` removes the
store for `id`, signalling NotFound if absent. -/
def memSessionDestroy (st : MemSt) (sid : String) : MemSt × Option String :=
  match assocGet st sid with
  | some _ => (assocDel st sid, none)
  | none => (st, some "session: NotFound")

/-- Modelled from the spec: the memory provider's `gc(maxLifetime)` removes
every store whose `lastAccessed` is older than `now - maxLifetime`. -/
def memSessionGC (now : Int) (st : MemSt) (maxLifeTime : Int) : MemSt :=
  st.filter fun e => decide (now - e.2.lastAccessed ≤ maxLifeTime)

/-- Modelled from the spec: the in-memory `Provider`, at a fixed clock
reading `now`. -/
def memoryProvider (now : Int) : Provider MemSt MemStore :=
  { sessionInit := memSessionInit now
    sessionRead := memSessionRead now
    sessionDestroy := memSessionDestroy
    sessionGC := memSessionGC now }

/-- Modelled from the spec: a session handle is a live reference into the
provider-owned store, so application code calling `set` through the handle
updates the provider's registry at the handle's identifier. -/
def memHandleSet (st : MemSt) (sid k v : String) : MemSt :=
  match assocGet st sid with
  | some store => assocSet st sid (store.Set k v)
  | none => st

/-- The Manager the demo builds: `NewManager("memory", "gosessionid", 30)`. -/
def mgrDemo : Manager MemSt MemStore :=
  { cookieName := "gosessionid", provider := memoryProvider 0, maxLifeTime := 30 }

/-- Nanoseconds per second: Go's `time.Second` as an integer count of
`time.Duration` units (`time.Duration` counts nanoseconds). -/
def timeSecond : Int := 1000000000

/-- What one invocation of `Manager.GC` leaves behind:
`rescheduleDelayNanos` is the duration, in nanoseconds, handed to
`time.AfterFunc` for the next invocation. -/
structure GCResult (σ : Type) where
  state : σ
  calls : List ProviderCall
  rescheduleDelayNanos : Int
deriving DecidableEq

/-- `Manager.GC`: calls `provider.SessionGC(maxLifeTime)` and re-arms itself
via `time.AfterFunc(time.Duration(manager.maxLifeTime), …)` — the conversion
`time.Duration(maxLifeTime)` interprets the integer as a count of
nanoseconds. -/
def Manager.GC {σ ς : Type} (m : Manager σ ς) (st : σ) : GCResult σ :=
  { state := m.provider.sessionGC st m.maxLifeTime
    calls := [.gc m.maxLifeTime]
    rescheduleDelayNanos := m.maxLifeTime }

/-- 32 zero bytes: one concrete outcome of `rand.Read` on the 32-byte
buffer. -/
def zeros32 : List Nat := List.replicate 32 0

/-- The session identifier generated from `zeros32`: 43 `A`s and one `=`
padding character (every 32-byte identifier ends in exactly one `=`). -/
def sid0 : String := "AAAAAAAAAAAAAAAAAAAAAAAAAAAAAAAAAAAAAAAAAAA="

/-- The cookie value issued for `sid0`: `url.QueryEscape` turns the `=`
padding into `%3D`. -/
def cv0 : String := "AAAAAAAAAAAAAAAAAAAAAAAAAAAAAAAAAAAAAAAAAAA%3D"

theorem assocGet_assocSet {K V : Type} [DecidableEq K] (l : List (K × V))
    (k : K) (v : V) : assocGet (assocSet l k v) k = some v := by
  induction l with
  | nil => simp [assocSet, assocGet]
  | cons hd tl ih =>
    obtain ⟨k', v'⟩ := hd
    by_cases h : k' = k <;> simp [assocSet, assocGet, h, ih]

theorem assocGet_assocDel {K V : Type} [DecidableEq K] (l : List (K × V))
    (k : K) : assocGet (assocDel l k) k = none := by
  induction l with
  | nil => simp [assocDel, assocGet]
  | cons hd tl ih =>
    obtain ⟨k', v'⟩ := hd
    by_cases h : k' = k <;> simp [assocDel, assocGet, h, ih]

/-- `base64URLEncode` emits four characters per started group of three
bytes. -/
theorem base64URLEncode_length (l : List Nat) :
    (base64URLEncode l).length = 4 * ((l.length + 2) / 3) := by
  match l with
  | [] =>
    simp [base64URLEncode]
  | [_] =>
    simp [base64URLEncode]
  | [_, _] =>
    simp [base64URLEncode]
  | a :: b :: c :: rest =>
    have ih := base64URLEncode_length rest
    simp only [base64URLEncode, List.length_cons, ih]
    omega

/-- C4: for every request in which the cookie named `cookieName` is absent
or has an empty value, `SessionStart` generates a fresh identifier, asks the
bound Provider to init it, and sets exactly one cookie on the response with
name `cookieName`, value the URL-escaped fresh identifier, path `/`, the
HTTP-only flag set, and `maxAge` equal to the configured `maxLifeTime`. -/
theorem C4_new_session_sets_one_cookie {σ ς : Type} (m : Manager σ ς)
    (st : σ) (rand : Option (List Nat)) (reqCookie : Option String)
    (h : reqCookie = none ∨ reqCookie = some "") :
    (m.SessionStart st reqCookie rand).cookiesSet =
      [{ name := m.cookieName, value := queryEscape (sessionID rand),
         path := "/", httpOnly := true, maxAge := m.maxLifeTime,
         expiresSet := false }] ∧
    (m.SessionStart st reqCookie rand).calls = [.init (sessionID rand)] := by
  rcases h with h | h <;> subst h <;>
    simp [Manager.SessionStart, Manager.sessionStartNew]

theorem C4_new_session_sets_one_cookie_witness :
    ((none : Option String) = none ∨ (none : Option String) = some "") ∧
    ((mgrDemo.SessionStart ([] : MemSt) none (some zeros32)).cookiesSet =
      [{ name := mgrDemo.cookieName,
         value := queryEscape (sessionID (some zeros32)), path := "/",
         httpOnly := true, maxAge := mgrDemo.maxLifeTime,
         expiresSet := false }] ∧
     (mgrDemo.SessionStart ([] : MemSt) none (some zeros32)).calls =
       [.init (sessionID (some zeros32))]) :=
  ⟨Or.inl rfl,
   C4_new_session_sets_one_cookie mgrDemo [] (some zeros32) none (Or.inl rfl)⟩

/-- C5: `NewManager` with an unregistered provider name returns the
"unknown provide" error and no Manager; with a registered name it returns a
Manager bound to the registered Provider, with the given cookie name and
lifetime. -/
theorem C5_newManager_lookup {σ ς : Type}
    (providers : List (String × Provider σ ς))
    (provideName cookieName : String) (maxLifeTime : Int) :
    (providers.lookup provideName = none →
      NewManager providers provideName cookieName maxLifeTime =
        .error ("session: unknown provide \"" ++ provideName ++
          "\" (forgotten import?)")) ∧
    (∀ p, providers.lookup provideName = some p →
      NewManager providers provideName cookieName maxLifeTime =
        .ok { cookieName := cookieName, provider := p,
              maxLifeTime := maxLifeTime }) := by
  constructor
  · intro h
    simp [NewManager, h]
  · intro p h
    simp [NewManager, h]

theorem C5_newManager_lookup_witness :
    (NewManager ([] : List (String × Provider MemSt MemStore)) "memory"
        "gosessionid" 30 =
      .error "session: unknown provide \"memory\" (forgotten import?)") ∧
    (NewManager [("memory", memoryProvider 0)] "memory" "gosessionid" 30 =
      .ok { cookieName := "gosessionid", provider := memoryProvider 0,
            maxLifeTime := 30 }) :=
  ⟨(C5_newManager_lookup ([] : List (String × Provider MemSt MemStore))
      "memory" "gosessionid" 30).1 rfl,
   (C5_newManager_lookup [("memory", memoryProvider 0)] "memory"
      "gosessionid" 30).2 (memoryProvider 0) rfl⟩

/-- C7: on any session handle, `Set` of a key to a value followed by `Get`
of that key returns the value, and after `Delete` of the key, `Get` returns
absent — for every key, value and prior state of the value mapping. -/
theorem C7_set_get_delete_roundtrip {K V : Type} [DecidableEq K]
    (s : SessionStore K V) (k : K) (v : V) :
    (s.Set k v).Get k = some v ∧ (s.Delete k).Get k = none := by
  constructor
  · simpa [SessionStore.Set, SessionStore.Get] using
      assocGet_assocSet s.values k v
  · simpa [SessionStore.Delete, SessionStore.Get] using
      assocGet_assocDel s.values k

theorem C7_set_get_delete_roundtrip_witness :
    ((({ sid := "s", lastAccessed := 0,
         values := [("x", "y"), ("k", "old")] } : MemStore).Set "k" "v").Get
        "k" = some "v") ∧
    ((({ sid := "s", lastAccessed := 0,
         values := [("x", "y"), ("k", "old")] } : MemStore).Delete "k").Get
        "k" = none) :=
  C7_set_get_delete_roundtrip
    { sid := "s", lastAccessed := 0, values := [("x", "y"), ("k", "old")] }
    "k" "v"

/-- C8: for every request in which the cookie named `cookieName` is absent
or empty, `SessionDestroy` is a no-op: the Provider state is unchanged, no
Provider operation is invoked, and no cookie is written to the response. -/
theorem C8_destroy_noop_without_cookie {σ ς : Type} (m : Manager σ ς)
    (st : σ) (reqCookie : Option String)
    (h : reqCookie = none ∨ reqCookie = some "") :
    (m.SessionDestroy st reqCookie).state = st ∧
    (m.SessionDestroy st reqCookie).calls = [] ∧
    (m.SessionDestroy st reqCookie).cookiesSet = [] := by
  rcases h with h | h <;> subst h <;> simp [Manager.SessionDestroy]

theorem C8_destroy_noop_without_cookie_witness :
    ((some "" : Option String) = none ∨ (some "" : Option String) = some "") ∧
    ((mgrDemo.SessionDestroy
        [("a", { sid := "a", lastAccessed := 0, values := [] })]
        (some "")).state =
          [("a", { sid := "a", lastAccessed := 0, values := [] })] ∧
     (mgrDemo.SessionDestroy
        [("a", { sid := "a", lastAccessed := 0, values := [] })]
        (some "")).calls = [] ∧
     (mgrDemo.SessionDestroy
        [("a", { sid := "a", lastAccessed := 0, values := [] })]
        (some "")).cookiesSet = []) :=
  ⟨Or.inr rfl,
   C8_destroy_noop_without_cookie mgrDemo
     [("a", { sid := "a", lastAccessed := 0, values := [] })] (some "")
     (Or.inr rfl)⟩

/-- C9: for every request carrying a non-empty cookie named `cookieName`,
`SessionStart` writes no cookie to the response: only the new-session branch
modifies the response's cookie state. -/
theorem C9_reuse_writes_no_cookie {σ ς : Type} (m : Manager σ ς) (st : σ)
    (v : String) (rand : Option (List Nat)) (h : v ≠ "") :
    (m.SessionStart st (some v) rand).cookiesSet = [] := by
  simp [Manager.SessionStart, h]

theorem C9_reuse_writes_no_cookie_witness :
    cv0 ≠ "" ∧
    (mgrDemo.SessionStart ([] : MemSt) (some cv0) none).cookiesSet = [] :=
  ⟨by decide, C9_reuse_writes_no_cookie mgrDemo [] cv0 none (by decide)⟩

/-- C10: `SessionStart` surfaces no error: on the read branch the returned
session is exactly the Provider's `SessionRead` result (possibly nil) with
the error and the unescape error discarded, the only Provider call being
that read; on the new-session branch the returned session is exactly the
Provider's `SessionInit` result with its error discarded. -/
theorem C10_start_discards_errors {σ ς : Type} (m : Manager σ ς) (st : σ)
    (v : String) (rand : Option (List Nat)) (h : v ≠ "") :
    ((m.SessionStart st (some v) rand).session =
        (m.provider.sessionRead st ((queryUnescape v).getD "")).2.1 ∧
      (m.SessionStart st (some v) rand).calls =
        [.read ((queryUnescape v).getD "")]) ∧
    (m.SessionStart st none rand).session =
      (m.provider.sessionInit st (sessionID rand)).2.1 := by
  refine ⟨⟨?_, ?_⟩, ?_⟩ <;>
    simp [Manager.SessionStart, Manager.sessionStartNew, h]

theorem C10_start_discards_errors_witness :
    "stale" ≠ "" ∧
    ((((mgrDemo.SessionStart ([] : MemSt) (some "stale") none).session =
        (mgrDemo.provider.sessionRead ([] : MemSt)
          ((queryUnescape "stale").getD "")).2.1 ∧
      (mgrDemo.SessionStart ([] : MemSt) (some "stale") none).calls =
        [.read ((queryUnescape "stale").getD "")]) ∧
     (mgrDemo.SessionStart ([] : MemSt) none none).session =
       (mgrDemo.provider.sessionInit ([] : MemSt) (sessionID none)).2.1)) :=
  ⟨by decide, C10_start_discards_errors mgrDemo [] "stale" none (by decide)⟩

/-- C1: `Manager.SessionDestroy` hands the Provider the raw, still
URL-escaped cookie value rather than the identifier `SessionStart` obtains
by unescaping it: for the identifier generated from 32 zero bytes the cookie
value `cv0` differs from the identifier `sid0` (the `=` padding is escaped
to `%3D`), the destroy call carries `cv0`, the store registered under `sid0`
survives with its values, and a subsequent `SessionStart` with the same
cookie still observes the previously stored value. -/
theorem C1_destroy_passes_escaped_value :
    sessionID (some zeros32) = sid0 ∧
    queryEscape sid0 = cv0 ∧
    queryUnescape cv0 = some sid0 ∧
    cv0 ≠ sid0 ∧
    (mgrDemo.SessionDestroy
      (memHandleSet (mgrDemo.SessionStart ([] : MemSt) none
        (some zeros32)).state sid0 "k" "v") (some cv0)).calls =
      [.destroy cv0] ∧
    assocGet (mgrDemo.SessionDestroy
      (memHandleSet (mgrDemo.SessionStart ([] : MemSt) none
        (some zeros32)).state sid0 "k" "v") (some cv0)).state sid0 =
      some { sid := sid0, lastAccessed := 0, values := [("k", "v")] } ∧
    ((mgrDemo.SessionStart
      (mgrDemo.SessionDestroy
        (memHandleSet (mgrDemo.SessionStart ([] : MemSt) none
          (some zeros32)).state sid0 "k" "v") (some cv0)).state
      (some cv0) none).session.map fun s => s.Get "k") = some (some "v") := by
  refine ⟨by decide, by decide, by decide, by decide, by decide, by decide,
    by decide⟩

/-- C2: when the random read fails, `sessionID` returns the empty string and
`SessionStart` silently creates a session under the empty identifier and
issues a cookie with an empty value — no fatal or surfaced error. -/
theorem C2_random_failure_creates_empty_session :
    sessionID none = "" ∧
    (mgrDemo.SessionStart ([] : MemSt) none none).calls = [.init ""] ∧
    (mgrDemo.SessionStart ([] : MemSt) none none).cookiesSet =
      [{ name := "gosessionid", value := "", path := "/", httpOnly := true,
         maxAge := 30, expiresSet := false }] ∧
    assocGet (mgrDemo.SessionStart ([] : MemSt) none none).state "" =
      some { sid := "", lastAccessed := 0, values := [] } := by
  refine ⟨rfl, by decide, by decide, by decide⟩

/-- C3: each `Manager.GC` invocation calls the Provider's GC with
`maxLifeTime` but re-arms itself via `time.AfterFunc(time.Duration(30), …)`,
a delay of 30 nanoseconds, not the 30 seconds of the configured lifetime. -/
theorem C3_gc_reschedules_nanoseconds :
    (mgrDemo.GC ([] : MemSt)).calls = [.gc 30] ∧
    (mgrDemo.GC ([] : MemSt)).rescheduleDelayNanos = 30 ∧
    (30 : Int) ≠ 30 * timeSecond := by
  refine ⟨by decide, by decide, by decide⟩

/-- C6: on a failing random read the generator emits the empty string, which
is not the base64-URL encoding of any 32-byte input (those encodings have
length 44), so not every produced identifier carries 256 bits of
randomness. -/
theorem C6_empty_identifier_on_random_failure :
    sessionID none = "" ∧
    ¬∃ b : List Nat, b.length = 32 ∧ encodeToString b = sessionID none := by
  refine ⟨rfl, ?_⟩
  rintro ⟨b, hb, henc⟩
  have hlen : (base64URLEncode b).length = 44 := by
    rw [base64URLEncode_length, hb]
  have h0 : (encodeToString b).length = 0 := by
    rw [henc]
    rfl
  have h44 : (encodeToString b).length = 44 := hlen
  omega

end SessionGo
